import Mathlib

set_option maxHeartbeats 1000000

/-!
A shallow embedding of `src/pex/bin/pex.py`: the build orchestration and
interpreter/platform resolution logic of the pex command-line tool.

The embedding follows the source file closely.  External collaborators that
live in this repository but outside `src/` (the interpreter prober, the
constraint validator, the cache installer, the venv materializer, `die`'s
default exit status) are modelled from the specification; each such
definition carries a doc comment starting with `Modelled from the spec:`.

Machine-level details that no claim depends on (file walking under source
directories, the archive writer, network resolution internals) are abstracted
behind environment records; the abstract resolution outcome is threaded
through so that the control flow of `build_pex` and `main` — which checks
fire, in which order, with which exit status, and which side effects are
observable — is embedded faithfully.
-/

namespace pex

/-- Exit status for unsatisfiable interpreter constraints (`pex.py` line 49). -/
def CANNOT_SETUP_INTERPRETER : Nat := 102

/-- Exit status for invalid/conflicting option combinations (`pex.py` line 50). -/
def INVALID_OPTIONS : Nat := 103

/-- Modelled from the spec: the default exit status of `pex.common.die`
(`pex/common.py`, not under `src/`).  The spec's exit-status table says:
"generic success = 0; unsatisfiable interpreter constraints = a distinguished
non-zero code; invalid/conflicting option combinations = a different
distinguished non-zero code; all other failures exit non-zero via a generic
fatal-error path."  A `die` call that passes no explicit status exits through
that generic fatal-error path: a non-zero status distinct from the two
distinguished codes above. -/
def GENERIC_FATAL : Nat := 1

/-- Modelled from the spec: the artifact metadata file name referenced as
`PexInfo.PATH` (`pex/pex_info.py`, not under `src/`); the spec calls it "the
artifact metadata". -/
def PexInfo_PATH : String := "PEX-INFO"

/-- A platform tag.  The spec only requires stable equality and hashing for
set operations, so tags are modelled as opaque strings. -/
abbrev Platform := String

/-- An interpreter descriptor as probed from a binary: identity (binary
path), version tuple (major, minor, patch) and the set of supported platform
tags.  Immutable once probed (spec section 3). -/
structure Interpreter where
  binary : String
  version : Nat × Nat × Nat
  supported_platforms : List Platform
deriving DecidableEq, Repr

/-- The `Seed` enum of `pex.py` lines 453-464. -/
inductive Seed where
  | NONE
  | ARGS
  | VERBOSE
deriving DecidableEq, Repr

/-- The slice of the parsed argparse namespace that the orchestration core
reads.  Python `None` defaults become `Option`/empty-list values; truthiness
of a string option is modelled as `Option.isSome` and of a list option as
non-emptiness. -/
structure Options where
  python : List String
  python_path : Option String
  interpreter_constraint : List String
  platforms : List Platform
  resolve_local_platforms : Bool
  entry_point : Option String
  script : Option String
  cache_dir : Option String
  pex_root : Option String
  runtime_pex_root : Option String
  disable_cache : Bool
  zip_safe : Option Bool
  unzip : Option Bool
  always_write_cache : Option Bool
  resources_directory : List String
  sources_directory : List String
  seed : Seed
  venv : Bool
  pex_name : Option String
deriving DecidableEq, Repr

/-- Observable side effects of one invocation: warnings emitted through
`pex_warnings.warn`, interpreter probes, and invocations of the two
resolution strategies (with the interpreters and platforms they were passed). -/
inductive Event where
  | warn (msg : String)
  | probe (binary : String)
  | resolveInvoked (interpreters : List Interpreter) (platforms : List Platform)
  | resolveFromPexInvoked (interpreters : List Interpreter) (platforms : List Platform)
deriving DecidableEq, Repr

/-- How an invocation fails: `die msg status` is `pex.common.die` (process
exit with `status`), `assertionError msg` is an uncaught `AssertionError`. -/
inductive Failure where
  | die (message : String) (exitStatus : Nat)
  | assertionError (message : String)
deriving DecidableEq, Repr

/-- The abstract machine environment for `build_pex`: the interpreter
population reachable on the effective search path, the current interpreter,
constraint syntax/satisfaction oracles, explicit-path lookup oracles, the
repository variant and the abstract dependency-resolution outcome. -/
structure PexEnv where
  /-- Interpreters reachable on the effective interpreter search path. -/
  reachable : List Interpreter
  /-- `PythonInterpreter.get()`: the current interpreter. -/
  current : Interpreter
  /-- Whether a constraint string is syntactically malformed. -/
  malformed : String → Bool
  /-- Whether an interpreter satisfies a constraint string. -/
  satisfies : Interpreter → String → Bool
  /-- `os.path.isfile` + `PythonInterpreter.from_binary` for an explicit path. -/
  fromBinary : String → Option Interpreter
  /-- `PythonInterpreter.from_env`: name lookup on `$PATH`. -/
  fromEnv : String → Option Interpreter
  /-- Whether `resolve_configuration.repository` is a `PexRepository`. -/
  repoIsPex : Bool
  /-- Abstract outcome of the dependency resolution back end: `.error msg`
  models an `Unsatisfiable` exception. -/
  resolveOutcome : Except String Unit

-- Warning messages (texts from `pex.py`; the `via` placeholder is spliced).

def cacheDirDeprecatedMsg : String :=
  "The --cache-dir option is deprecated, use --pex-root instead."

def cacheDirConflictMsg : String :=
  "Both --cache-dir and --pex-root were passed with conflicting values. Just set --pex-root."

def ignoredPexRootMsg (via : String) : String :=
  "The pex root has been set via " ++ via ++
    " but --disable-cache is also set. Ignoring " ++ via ++ " and disabling caches."

def pythonConstraintConflictMsg : String :=
  "The \"--python\" and \"--interpreter-constraint\" options cannot be used together."

def entryPointScriptConflictMsg : String :=
  "Must specify at most one entry point or script."

def resourcesDirectoryDeprecatedMsg : String :=
  "The `-R/--resources-directory` option is deprecated. Resources should be added via `-D/--sources-directory` instead."

def zipSafeDeprecatedMsg : String :=
  "The `--zip-safe/--not-zip-safe` option is deprecated. This option is no longer used since user code is now always unzipped before execution."

def unzipDeprecatedMsg : String :=
  "The `--unzip/--no-unzip` option is deprecated. This option is no longer used since unzipping PEX zip files before execution is now the default."

def alwaysWriteCacheDeprecatedMsg : String :=
  "The `--always-write-cache` option is deprecated. This option is no longer used; all internally cached distributions in a PEX are always installed into the local Pex dependency cache."

def unsatisfiableConstraintsMsg : String :=
  "Could not find a compatible interpreter."

/-- First-occurrence deduplication with an accumulator of already-seen
elements; `odedup` below is `OrderedSet` construction from a list. -/
def odedupAux {α : Type} [DecidableEq α] (seen : List α) : List α → List α
  | [] => []
  | x :: xs => if x ∈ seen then odedupAux seen xs else x :: odedupAux (x :: seen) xs

/-- `OrderedSet(l)`: keep the first occurrence of each element, in order. -/
def odedup {α : Type} [DecidableEq α] (l : List α) : List α :=
  odedupAux [] l

/-- `OrderedSet.add`: append an element if it is not already present. -/
def osAdd {α : Type} [DecidableEq α] (l : List α) (x : α) : List α :=
  if x ∈ l then l else l ++ [x]

/-- Modelled from the spec: `validate_constraints` from
`pex.interpreter_constraints` (not under `src/`): "constraints are first
syntactically validated (fail fast, before any interpreter probing, on
malformed constraint syntax)".  The environment's `malformed` oracle decides
syntactic validity; a malformed constraint is a fatal error through the
generic `die` path. -/
def validate_constraints (env : PexEnv) (constraints : List String) : Except String Unit :=
  match constraints.find? env.malformed with
  | some c => .error ("Compatibility requirements are not formatted properly: " ++ c)
  | none => .ok ()

/-- Modelled from the spec: `iter_compatible_interpreters` from
`pex.pex_bootstrapper` (not under `src/`): "every interpreter reachable on
the effective search path is probed and kept if it satisfies at least one
constraint; if none satisfy any constraint, the operation fails with a
distinguished unsatisfiable-constraints condition".  With no constraints
every reachable interpreter is returned. -/
def iter_compatible_interpreters (env : PexEnv) (constraints : List String) :
    Except String (List Interpreter) :=
  if constraints.isEmpty then .ok env.reachable
  else
    let kept := env.reachable.filter fun i => constraints.any fun c => env.satisfies i c
    if kept.isEmpty then .error unsatisfiableConstraintsMsg else .ok kept

/-- `to_python_interpreter` (`pex.py` lines 669-676): an explicit interpreter
identifier is first treated as a file path, then resolved by name lookup, and
failing both the build dies (generic status) naming the identifier. -/
def to_python_interpreter (env : PexEnv) (full_path_or_basename : String) :
    Except Failure Interpreter :=
  match env.fromBinary full_path_or_basename with
  | some i => .ok i
  | none =>
    match env.fromEnv full_path_or_basename with
    | some i => .ok i
    | none => .error (.die ("Failed to find interpreter: " ++ full_path_or_basename) GENERIC_FATAL)

/-- Resolve every explicit `--python` identifier, left to right. -/
def to_python_interpreters (env : PexEnv) : List String → Except Failure (List Interpreter)
  | [] => .ok []
  | s :: rest => do
    let i ← to_python_interpreter env s
    let is ← to_python_interpreters env rest
    .ok (i :: is)

/-- Interpreter selection (`pex.py` lines 657-693): explicit `--python`
identifiers are looked up directly; otherwise non-empty interpreter
constraints are syntactically validated and then the search path is probed,
dying with `CANNOT_SETUP_INTERPRETER` when no reachable interpreter satisfies
any constraint; with neither option the selection is empty (current
interpreter default, applied later). -/
def select_interpreters (env : PexEnv) (opts : Options) :
    List Event × Except Failure (List Interpreter) :=
  if opts.python ≠ [] then
    ([], to_python_interpreters env opts.python)
  else if opts.interpreter_constraint ≠ [] then
    match validate_constraints env opts.interpreter_constraint with
    | .error m => ([], .error (.die m GENERIC_FATAL))
    | .ok _ =>
      let probes := env.reachable.map fun i => Event.probe i.binary
      match iter_compatible_interpreters env opts.interpreter_constraint with
      | .error m => (probes, .error (.die m CANNOT_SETUP_INTERPRETER))
      | .ok is => (probes, .ok is)
  else ([], .ok [])

/-- The local platform matching loop (`pex.py` lines 703-715): for each
candidate interpreter in discovery order, the tags it supports are removed
from the still-to-resolve set and the candidate is appended to the
participating interpreters (only when it claimed at least one tag). -/
def match_local_platforms (candidates : List Interpreter)
    (platforms : List Platform) (interpreters : List Interpreter) :
    List Platform × List Interpreter :=
  match candidates with
  | [] => (platforms, interpreters)
  | c :: rest =>
    let resolved := platforms.filter fun p => c.supported_platforms.contains p
    if resolved.isEmpty then
      match_local_platforms rest platforms interpreters
    else
      match_local_platforms rest
        (platforms.filter fun p => !(c.supported_platforms.contains p))
        (interpreters ++ [c])

/-- The platform phase of `build_pex` (`pex.py` lines 695-723): the declared
platforms are deduplicated into an ordered set; when platforms are declared
and `--resolve-local-platforms` is set, every reachable interpreter plus the
current one (ordered, deduplicated) is matched against them; otherwise the
declared tags pass through untouched to binary-only resolution. -/
def platform_phase (env : PexEnv) (opts : Options) (interpreters : List Interpreter) :
    List Event × (List Platform × List Interpreter) :=
  let platforms := odedup opts.platforms
  if opts.platforms ≠ [] ∧ opts.resolve_local_platforms = true then
    let probes := env.reachable.map fun i => Event.probe i.binary
    let found :=
      match iter_compatible_interpreters env [] with
      | .ok is => is
      | .error _ => []
    let candidates := osAdd (odedup found) env.current
    (probes, match_local_platforms candidates platforms interpreters)
  else
    ([], (platforms, interpreters))

def majorOf (i : Interpreter) : Nat := i.version.1

def minorOf (i : Interpreter) : Nat := i.version.2.1

def patchOf (i : Interpreter) : Nat := i.version.2.2

/-- `i`'s release line `(major, minor)` is at or below `j`'s. -/
def lineLe (i j : Interpreter) : Prop :=
  majorOf i < majorOf j ∨ (majorOf i = majorOf j ∧ minorOf i ≤ minorOf j)

/-- `i` and `j` are on the same release line. -/
def lineEq (i j : Interpreter) : Prop :=
  majorOf i = majorOf j ∧ minorOf i = minorOf j

instance (i j : Interpreter) : Decidable (lineLe i j) :=
  inferInstanceAs (Decidable (majorOf i < majorOf j ∨ (majorOf i = majorOf j ∧ minorOf i ≤ minorOf j)))

instance (i j : Interpreter) : Decidable (lineEq i j) :=
  inferInstanceAs (Decidable (majorOf i = majorOf j ∧ minorOf i = minorOf j))

/-- Whether candidate `c` displaces the current best: strictly lower release
line, or same release line with a more recent (higher patch) release. -/
def better (c best : Interpreter) : Bool :=
  decide (majorOf c < majorOf best ∨ (majorOf c = majorOf best ∧ minorOf c < minorOf best)) ||
    (decide (lineEq c best) && decide (patchOf best < patchOf c))

def pickBest (best c : Interpreter) : Interpreter :=
  if better c best then c else best

/-- `i` is at least as good a primary choice as `j`: a release line at or
below `j`'s, and at least as recent a release when the lines coincide. -/
def bestRel (i j : Interpreter) : Prop :=
  lineLe i j ∧ (lineEq j i → patchOf j ≤ patchOf i)

/-- Modelled from the spec:
`PythonInterpreter.latest_release_of_min_compatible_version`
(`pex/interpreter.py`, not under `src/`): "choose the interpreter with the
lowest version that is still compatible with every candidate's constraint set
among those offering the latest available release line — concretely: compute
the minimal version satisfying all constraints, then prefer the most recently
released interpreter binary at or above that version", i.e. the minimal
`(major, minor)` release line among the candidates, and within that line the
latest (highest patch) release, first candidate winning ties. -/
def latest_release_of_min_compatible_version : List Interpreter → Option Interpreter
  | [] => none
  | x :: xs => some (xs.foldl pickBest x)

/-- Primary interpreter selection (`pex.py` lines 725-729): absent exactly
when the participating interpreter list is empty. -/
def select_primary (interpreters : List Interpreter) : Option Interpreter :=
  if interpreters.isEmpty then none
  else latest_release_of_min_compatible_version interpreters

/-- The deprecated-flag warnings of `build_pex` (`pex.py` lines 743-766), in
source order: `-R` (`--resources-directory`), `--zip-safe` (`--not-zip-safe`),
`--unzip` (`--no-unzip`), `--always-write-cache`. -/
def deprecation_warnings (opts : Options) : List Event :=
  (if opts.resources_directory ≠ [] then [Event.warn resourcesDirectoryDeprecatedMsg] else []) ++
    (if opts.zip_safe.isSome then [Event.warn zipSafeDeprecatedMsg] else []) ++
    (if opts.unzip.isSome then [Event.warn unzipDeprecatedMsg] else []) ++
    (if opts.always_write_cache.isSome then [Event.warn alwaysWriteCacheDeprecatedMsg] else [])

/-- The observable state of the `PEXBuilder` workspace that the claims are
about: the primary interpreter, the deduplicated source directories walked
into the workspace, the recorded interpreter constraints and the entry
point/script metadata. -/
structure PEXBuilder where
  interpreter : Option Interpreter
  sources_directories : List String
  interpreter_constraints : List String
  entry_point : Option String
  script : Option String
deriving DecidableEq, Repr

/-- `build_pex` (`pex.py` lines 649-857): interpreter selection, platform
matching, primary selection, deprecation warnings, source-directory
collection, dependency resolution (one of two strategies chosen by the
repository variant), and — after resolution — the entry-point/script
mutual-exclusion check that dies with `INVALID_OPTIONS`. -/
def build_pex (env : PexEnv) (opts : Options) :
    List Event × Except Failure PEXBuilder :=
  let sel := select_interpreters env opts
  match sel.2 with
  | .error f => (sel.1, .error f)
  | .ok interpreters0 =>
    let pp := platform_phase env opts interpreters0
    let platforms := pp.2.1
    let interpreters := pp.2.2
    let interpreter := select_primary interpreters
    let directories := odedup (opts.sources_directory ++ opts.resources_directory)
    let resolveEvent :=
      if env.repoIsPex then Event.resolveFromPexInvoked interpreters platforms
      else Event.resolveInvoked interpreters platforms
    let evs := sel.1 ++ pp.1 ++ deprecation_warnings opts ++ [resolveEvent]
    match env.resolveOutcome with
    | .error m => (evs, .error (.die m GENERIC_FATAL))
    | .ok _ =>
      if opts.entry_point.isSome ∧ opts.script.isSome then
        (evs, .error (.die entryPointScriptConflictMsg INVALID_OPTIONS))
      else
        (evs,
          .ok
            { interpreter := interpreter
              sources_directories := directories
              interpreter_constraints := opts.interpreter_constraint
              entry_point := opts.entry_point
              script := if opts.entry_point.isSome then none else opts.script })

/-- The cache/pex-root computation of `main` (`pex.py` lines 900-925): the
`--cache-dir` deprecation warning and conflict check, then under
`--disable-cache` a warning for the highest-precedence ignored root source
and a fresh private temporary directory, otherwise the first of
`--cache-dir`, `--pex-root`, the `PEX_ROOT` environment variable, or the
built-in default. -/
def compute_pex_root (opts : Options) (envPexRoot : Option String)
    (defaultPexRoot freshTmp : String) : List Event × Except Failure String :=
  let deprecationEvs :=
    if opts.cache_dir.isSome then [Event.warn cacheDirDeprecatedMsg] else []
  if opts.cache_dir.isSome ∧ opts.pex_root.isSome ∧ opts.cache_dir ≠ opts.pex_root then
    (deprecationEvs, .error (.die cacheDirConflictMsg GENERIC_FATAL))
  else if opts.disable_cache then
    (deprecationEvs ++
      (if opts.cache_dir.isSome then [Event.warn (ignoredPexRootMsg "--cache-dir")]
       else if opts.pex_root.isSome then [Event.warn (ignoredPexRootMsg "--pex-root")]
       else if envPexRoot.isSome then [Event.warn (ignoredPexRootMsg "PEX_ROOT")]
       else []),
      .ok freshTmp)
  else
    (deprecationEvs,
      .ok
        (match opts.cache_dir, opts.pex_root, envPexRoot with
         | some c, _, _ => c
         | none, some p, _ => p
         | none, none, some e => e
         | none, none, none => defaultPexRoot))

/-- The shared cache: the set of installed content-hash-keyed entries, each
identified by its cache root and key. -/
abbrev CacheState := List (String × String)

/-- The content-hash-keyed location of an installed pex under a cache root. -/
def installedPexPath (pex_root pex_hash : String) : String :=
  pex_root ++ "/installed_pexes/" ++ pex_hash

/-- Modelled from the spec: `maybe_install` from `pex.layout` (not under
`src/`): "use that hash to install (or reuse an existing installation keyed
by that hash) into the shared cache root"; a cache entry is "created once per
distinct build content, reused (never rebuilt) on subsequent identical
builds".  Returns the entry path, the updated cache and whether installation
work was performed.  The exact subdirectory layout under the root is
abstracted by `installedPexPath`. -/
def maybe_install (st : CacheState) (pex : String) (pex_root : String) (pex_hash : String) :
    Option String × CacheState × Bool :=
  if (pex_root, pex_hash) ∈ st then
    (some (installedPexPath pex_root pex_hash), st, false)
  else
    (some (installedPexPath pex_root pex_hash), (pex_root, pex_hash) :: st, true)

/-- The entry-point path of a materialized venv under a cache root. -/
def venvPexPath (pex_root pex : String) : String :=
  pex_root ++ "/venvs/" ++ pex ++ "/pex"

/-- Modelled from the spec: `ensure_venv` from `pex.pex_bootstrapper` (not
under `src/`): "request materialization of an isolated runtime environment
derived from the artifact; this is itself idempotent — repeated seeding
against an unchanged artifact under a stable shared cache root must reuse the
previously materialized environment rather than rebuilding it.  Return the
environment's entry-point path." -/
def ensure_venv (st : CacheState) (pex_root pex : String) : String × CacheState × Bool :=
  if (pex_root, "venv:" ++ pex) ∈ st then (venvPexPath pex_root pex, st, false)
  else (venvPexPath pex_root pex, (pex_root, "venv:" ++ pex) :: st, true)

/-- The `json.dumps` of the verbose seed record (`pex.py` line 991): keys in
insertion order `pex_root`, `python`, `pex`. -/
def json_dumps_seed (pex_root python pex : String) : String :=
  "\x7b\"pex_root\": \"" ++ pex_root ++ "\", \"python\": \"" ++ python ++
    "\", \"pex\": \"" ++ pex ++ "\"\x7d"

/-- The data `seed_cache` reads off the built `PEX` object: the effective
cache root recorded in the artifact metadata, the content hash stored at
build time, and the interpreter binary. -/
structure SeedEnv where
  pex_root : String
  pex_hash : Option String
  python_binary : String
deriving DecidableEq, Repr

/-- `seed_cache` (`pex.py` lines 977-1016).  In venv mode the venv is
materialized idempotently; otherwise a missing content hash is an
`AssertionError` naming the metadata file and the artifact path, and an
existing hash is installed (or reused) into the shared cache, the returned
invocable path ending in `__main__.py`.  Returns the output (or assertion
message), the updated cache and whether installation work was performed. -/
def seed_cache (st : CacheState) (senv : SeedEnv) (options : Options) (verbose : Bool) :
    Except String String × CacheState × Bool :=
  let pex_path := options.pex_name.getD ""
  let pex_root := senv.pex_root
  if options.venv then
    let r := ensure_venv st pex_root pex_path
    ((if verbose then .ok (json_dumps_seed pex_root senv.python_binary r.1)
      else .ok r.1),
      r.2.1, r.2.2)
  else
    match senv.pex_hash with
    | none =>
      (.error ("There was no pex_hash stored in " ++ PexInfo_PATH ++ " for " ++ pex_path ++ "."),
        st, false)
    | some pex_hash =>
      let r := maybe_install st pex_path pex_root pex_hash
      let final_pex_path := (r.1.getD pex_path) ++ "/__main__.py"
      ((if verbose then .ok (json_dumps_seed pex_root senv.python_binary final_pex_path)
        else .ok final_pex_path),
        r.2.1, r.2.2)

/-- Modelled from the spec: the artifact metadata's effective cache root
(`PexInfo.pex_root`, `pex/pex_info.py`, not under `src/`): the
`--runtime-pex-root` override recorded at build time (`pex.py` line 788) when
present, else the `PEX_ROOT` in force for the invocation, which `main`
patches to its computed cache root before building. -/
def pex_info_pex_root (opts : Options) (computedRoot : String) : String :=
  opts.runtime_pex_root.getD computedRoot

/-- How `main` ends when it does not die: running the built pex in place
(no `-o`), or saving it to the output file, optionally printing the seed
output. -/
inductive MainOutcome where
  | ranPex
  | saved (seedOutput : Option String)
deriving DecidableEq, Repr

/-- The abstract machine environment for `main`, extending the `build_pex`
environment with the tmpdir preconditions, the `PEX_ROOT` environment
variable, the built-in default root, the fresh private temporary directory
`safe_mkdtemp` would create, the outcome of resolve-option validation, the
content hash the artifact writer stored, and the initial shared cache. -/
structure MainEnv extends PexEnv where
  tmpdirExists : Bool
  tmpdirIsDir : Bool
  envPexRoot : Option String
  defaultPexRoot : String
  freshTmpdir : String
  /-- Abstract outcome of `resolve_options.create_resolve_configuration`. -/
  resolveConfigOutcome : Except String Unit
  /-- The `pex_hash` the artifact writer stored in the metadata. -/
  builtPexHash : Option String
  cache0 : CacheState

/-- `main` (`pex.py` lines 878-974): tmpdir preconditions, pex-root
computation, the `--python`/`--interpreter-constraint` conflict check (before
any build or probing), resolve-configuration validation, the build, and then
either running the pex or saving it and (when `--seed` is not `none`) seeding
the shared cache.  Returns the events, the final shared cache and the
outcome. -/
def main (env : MainEnv) (opts : Options) :
    List Event × CacheState × Except Failure MainOutcome :=
  if env.tmpdirExists = false then
    ([], env.cache0, .error (.die "The specified --tmpdir does not exist." GENERIC_FATAL))
  else if env.tmpdirIsDir = false then
    ([], env.cache0, .error (.die "The specified --tmpdir is not a directory." GENERIC_FATAL))
  else
    let cpr := compute_pex_root opts env.envPexRoot env.defaultPexRoot env.freshTmpdir
    match cpr.2 with
    | .error f => (cpr.1, env.cache0, .error f)
    | .ok pex_root =>
      if opts.python ≠ [] ∧ opts.interpreter_constraint ≠ [] then
        (cpr.1, env.cache0, .error (.die pythonConstraintConflictMsg GENERIC_FATAL))
      else
        match env.resolveConfigOutcome with
        | .error m => (cpr.1, env.cache0, .error (.die m GENERIC_FATAL))
        | .ok _ =>
          let bp := build_pex env.toPexEnv opts
          match bp.2 with
          | .error f => (cpr.1 ++ bp.1, env.cache0, .error f)
          | .ok b =>
            match opts.pex_name with
            | none => (cpr.1 ++ bp.1, env.cache0, .ok .ranPex)
            | some _ =>
              if opts.seed ≠ Seed.NONE then
                let senv : SeedEnv :=
                  { pex_root := pex_info_pex_root opts pex_root
                    pex_hash := env.builtPexHash
                    python_binary := (b.interpreter.getD env.current).binary }
                let sc := seed_cache env.cache0 senv opts (opts.seed == Seed.VERBOSE)
                match sc.1 with
                | .error m => (cpr.1 ++ bp.1, sc.2.1, .error (.assertionError m))
                | .ok out => (cpr.1 ++ bp.1, sc.2.1, .ok (.saved (some out)))
              else (cpr.1 ++ bp.1, env.cache0, .ok (.saved none))

-- Concrete inputs used by the witness and counterexample theorems.

def demoInterp : Interpreter :=
  { binary := "/usr/bin/python3.9", version := (3, 9, 7),
    supported_platforms := ["manylinux2014_x86_64-cp-39-cp39"] }

def demoEnv : PexEnv :=
  { reachable := []
    current := demoInterp
    malformed := fun _ => false
    satisfies := fun _ _ => false
    fromBinary := fun _ => none
    fromEnv := fun _ => none
    repoIsPex := false
    resolveOutcome := .ok () }

def demoOpts : Options :=
  { python := []
    python_path := none
    interpreter_constraint := []
    platforms := []
    resolve_local_platforms := false
    entry_point := none
    script := none
    cache_dir := none
    pex_root := none
    runtime_pex_root := none
    disable_cache := false
    zip_safe := none
    unzip := none
    always_write_cache := none
    resources_directory := []
    sources_directory := []
    seed := .NONE
    venv := false
    pex_name := none }

def demoMainEnv : MainEnv :=
  { toPexEnv := demoEnv
    tmpdirExists := true
    tmpdirIsDir := true
    envPexRoot := none
    defaultPexRoot := "/home/user/.pex"
    freshTmpdir := "/tmp/tmpgc8aseek"
    resolveConfigOutcome := .ok ()
    builtPexHash := some "0f1e2d3c"
    cache0 := [] }

def demoSeedEnv : SeedEnv :=
  { pex_root := "/home/user/.pex"
    pex_hash := some "0f1e2d3c"
    python_binary := "/usr/bin/python3.9" }

def demoSeedEnvNoHash : SeedEnv :=
  { pex_root := "/home/user/.pex"
    pex_hash := none
    python_binary := "/usr/bin/python3.9" }

def demoOptsNamed : Options := { demoOpts with pex_name := some "app.pex" }

-- Concrete interpreters exercising the primary-selection rule.

def demoI310 : Interpreter :=
  { binary := "/usr/bin/python3.10", version := (3, 10, 1), supported_platforms := [] }

def demoI38a : Interpreter :=
  { binary := "/usr/bin/python3.8", version := (3, 8, 5), supported_platforms := [] }

def demoI38b : Interpreter :=
  { binary := "/opt/py389/bin/python3.8", version := (3, 8, 9), supported_platforms := [] }

def demoInts : List Interpreter := [demoI310, demoI38a, demoI38b]

-- Concrete platforms exercising the platform matcher.

def demoPlatA : Platform := "manylinux2014_x86_64-cp-39-cp39"

def demoPlatB : Platform := "macosx_10_15_x86_64-cp-39-cp39"

-- Concrete environments and options exercising the constraint path.

def c4envMalformed : PexEnv :=
  { demoEnv with
    malformed := fun s => s == "not-a-constraint"
    reachable := [demoInterp] }

def c4optsMalformed : Options :=
  { demoOpts with interpreter_constraint := ["not-a-constraint"] }

def c4envUnsat : PexEnv :=
  { demoEnv with reachable := [demoInterp] }

def c4optsUnsat : Options :=
  { demoOpts with interpreter_constraint := ["CPython>=99"] }

-- Concrete options exercising the seed modes.

def c8optsArgs : Options := { demoOpts with pex_name := some "app.pex", seed := .ARGS }

def c8optsVerbose : Options := { demoOpts with pex_name := some "app.pex", seed := .VERBOSE }

def c8optsNone : Options := { demoOpts with pex_name := some "out.pex", seed := .NONE }

-- General helper lemmas.

theorem mem_odedupAux {α : Type} [DecidableEq α] (l : List α) :
    ∀ (seen : List α) (t : α), t ∈ odedupAux seen l ↔ (t ∈ l ∧ t ∉ seen) := by
  induction l with
  | nil => intro seen t; simp [odedupAux]
  | cons x xs ih =>
    intro seen t
    by_cases hx : x ∈ seen
    · rw [odedupAux, if_pos hx, ih]
      by_cases ht : t = x
      · subst ht; simp [hx]
      · simp [List.mem_cons, ht]
    · rw [odedupAux, if_neg hx]
      by_cases ht : t = x
      · subst ht; simp [hx]
      · simp only [List.mem_cons, ih, ht, false_or]

theorem mem_odedup {α : Type} [DecidableEq α] (l : List α) (t : α) :
    t ∈ odedup l ↔ t ∈ l := by
  rw [odedup, mem_odedupAux]
  simp

theorem match_local_platforms_rem_subset (candidates : List Interpreter) :
    ∀ (platforms : List Platform) (interpreters : List Interpreter),
      (match_local_platforms candidates platforms interpreters).1 ⊆ platforms := by
  induction candidates with
  | nil => intro ps init; rw [match_local_platforms]; exact fun a h => h
  | cons c rest ih =>
    intro ps init
    rw [match_local_platforms]
    by_cases h : (ps.filter fun p => c.supported_platforms.contains p).isEmpty
    · rw [if_pos h]; exact ih ps init
    · rw [if_neg h]
      exact fun a ha =>
        List.filter_subset' _ (ih (ps.filter fun p => !(c.supported_platforms.contains p)) _ ha)

theorem match_local_platforms_init_subset (candidates : List Interpreter) :
    ∀ (platforms : List Platform) (interpreters : List Interpreter),
      interpreters ⊆ (match_local_platforms candidates platforms interpreters).2 := by
  induction candidates with
  | nil => intro ps init; rw [match_local_platforms]; exact fun a h => h
  | cons c rest ih =>
    intro ps init
    rw [match_local_platforms]
    by_cases h : (ps.filter fun p => c.supported_platforms.contains p).isEmpty
    · rw [if_pos h]; exact ih ps init
    · rw [if_neg h]
      intro a ha
      exact ih _ (init ++ [c]) (List.mem_append_left _ ha)

theorem match_local_platforms_spec (candidates : List Interpreter) :
    ∀ (platforms : List Platform) (interpreters : List Interpreter) (t : Platform),
      t ∈ platforms →
        ((candidates.find? (fun c => c.supported_platforms.contains t) = none →
            t ∈ (match_local_platforms candidates platforms interpreters).1) ∧
          (∀ c, candidates.find? (fun c2 => c2.supported_platforms.contains t) = some c →
            c ∈ (match_local_platforms candidates platforms interpreters).2 ∧
              t ∉ (match_local_platforms candidates platforms interpreters).1)) := by
  induction candidates with
  | nil =>
    intro ps init t ht
    refine ⟨fun _ => ?_, fun c hc => by simp at hc⟩
    rw [match_local_platforms]; exact ht
  | cons c rest ih =>
    intro ps init t ht
    by_cases hct : c.supported_platforms.contains t = true
    · -- `c` is the first candidate claiming `t`.
      have hfind : (c :: rest).find? (fun c2 => c2.supported_platforms.contains t) = some c :=
        List.find?_cons_of_pos _ hct
      have hres : ¬((ps.filter fun p => c.supported_platforms.contains p).isEmpty = true) := by
        rw [List.isEmpty_iff]
        intro hnil
        have : t ∈ ps.filter fun p => c.supported_platforms.contains p :=
          List.mem_filter.mpr ⟨ht, hct⟩
        rw [hnil] at this
        exact absurd this (List.not_mem_nil t)
      constructor
      · intro hnone
        rw [hfind] at hnone
        exact absurd hnone (by simp)
      · intro c2 hc2
        rw [hfind] at hc2
        injection hc2 with hc2
        subst hc2
        rw [match_local_platforms, if_neg hres]
        constructor
        · exact match_local_platforms_init_subset rest _ (init ++ [c])
            (List.mem_append_right _ (List.mem_singleton.mpr rfl))
        · intro hmem
          have := match_local_platforms_rem_subset rest
            (ps.filter fun p => !(c.supported_platforms.contains p)) (init ++ [c]) hmem
          have := List.mem_filter.mp this
          rw [hct] at this
          simp at this
    · -- `c` does not support `t`: the head step preserves `t`'s fate.
      have hfind : (c :: rest).find? (fun c2 => c2.supported_platforms.contains t)
          = rest.find? (fun c2 => c2.supported_platforms.contains t) :=
        List.find?_cons_of_neg _ (by simpa using hct)
      rw [match_local_platforms]
      by_cases h : (ps.filter fun p => c.supported_platforms.contains p).isEmpty
      · rw [if_pos h, hfind]
        exact ih ps init t ht
      · rw [if_neg h, hfind]
        have ht2 : t ∈ ps.filter fun p => !(c.supported_platforms.contains p) :=
          List.mem_filter.mpr ⟨ht, by simpa using hct⟩
        exact ih _ (init ++ [c]) t ht2

theorem bestRel_refl (i : Interpreter) : bestRel i i :=
  ⟨Or.inr ⟨rfl, Nat.le_refl _⟩, fun _ => Nat.le_refl _⟩

theorem bestRel_trans {a b c : Interpreter} (h1 : bestRel a b) (h2 : bestRel b c) :
    bestRel a c := by
  unfold bestRel lineLe lineEq at h1 h2 ⊢
  obtain ⟨h1l, h1p⟩ := h1
  obtain ⟨h2l, h2p⟩ := h2
  constructor
  · omega
  · intro hca
    have hba : majorOf b = majorOf a ∧ minorOf b = minorOf a := by omega
    have hcb : majorOf c = majorOf b ∧ minorOf c = minorOf b := by omega
    have := h1p hba
    have := h2p hcb
    omega

theorem pickBest_cases (best c : Interpreter) :
    pickBest best c = best ∨ pickBest best c = c := by
  unfold pickBest
  split
  · exact Or.inr rfl
  · exact Or.inl rfl

theorem bestRel_pickBest_left (best c : Interpreter) : bestRel (pickBest best c) best := by
  unfold pickBest
  by_cases h : better c best = true
  · rw [if_pos h]
    simp only [better, lineEq, Bool.or_eq_true, Bool.and_eq_true, decide_eq_true_eq] at h
    unfold bestRel lineLe lineEq
    constructor
    · omega
    · intro hbe
      omega
  · rw [if_neg h]
    exact bestRel_refl best

theorem bestRel_pickBest_right (best c : Interpreter) : bestRel (pickBest best c) c := by
  unfold pickBest
  by_cases h : better c best = true
  · rw [if_pos h]
    exact bestRel_refl c
  · rw [if_neg h]
    simp only [better, lineEq, Bool.or_eq_true, Bool.and_eq_true, decide_eq_true_eq] at h
    unfold bestRel lineLe lineEq
    constructor
    · omega
    · intro hce
      omega

theorem foldl_pickBest_mem (xs : List Interpreter) :
    ∀ x : Interpreter, xs.foldl pickBest x ∈ x :: xs := by
  induction xs with
  | nil => intro x; simp [List.foldl]
  | cons y ys ih =>
    intro x
    rw [List.foldl_cons]
    have hm := ih (pickBest x y)
    rcases List.mem_cons.mp hm with he | hin
    · rw [he]
      rcases pickBest_cases x y with h | h <;> rw [h] <;> simp [List.mem_cons]
    · exact List.mem_cons_of_mem _ (List.mem_cons_of_mem _ hin)

theorem foldl_pickBest_best (xs : List Interpreter) :
    ∀ (x j : Interpreter), j ∈ x :: xs → bestRel (xs.foldl pickBest x) j := by
  induction xs with
  | nil =>
    intro x j hj
    rcases List.mem_cons.mp hj with rfl | h
    · exact bestRel_refl _
    · exact absurd h (List.not_mem_nil j)
  | cons y ys ih =>
    intro x j hj
    rw [List.foldl_cons]
    rcases List.mem_cons.mp hj with rfl | hj2
    · exact bestRel_trans (ih (pickBest j y) _ (List.mem_cons_self _ _))
        (bestRel_pickBest_left j y)
    · rcases List.mem_cons.mp hj2 with rfl | hj3
      · exact bestRel_trans (ih (pickBest x j) _ (List.mem_cons_self _ _))
          (bestRel_pickBest_right x j)
      · exact ih (pickBest x y) j (List.mem_cons_of_mem _ hj3)

theorem compute_pex_root_no_probe (opts : Options) (er : Option String) (dp ft b : String) :
    Event.probe b ∉ (compute_pex_root opts er dp ft).1 := by
  simp only [compute_pex_root]
  split_ifs <;> simp

theorem compute_pex_root_isOk (opts : Options) (er : Option String) (dp ft : String)
    (hnc : ¬(opts.cache_dir.isSome ∧ opts.pex_root.isSome ∧ opts.cache_dir ≠ opts.pex_root)) :
    ∃ r, (compute_pex_root opts er dp ft).2 = .ok r := by
  simp only [compute_pex_root]
  by_cases hc : opts.cache_dir.isSome ∧ opts.pex_root.isSome ∧ opts.cache_dir ≠ opts.pex_root
  · exact absurd hc hnc
  · rw [if_neg hc]
    by_cases hd : opts.disable_cache = true
    · rw [if_pos hd]
      exact ⟨ft, rfl⟩
    · rw [if_neg hd]
      exact ⟨_, rfl⟩

theorem build_pex_sel_error (env : PexEnv) (opts : Options) (f : Failure)
    (hsel : (select_interpreters env opts).2 = .error f) :
    (build_pex env opts).2 = .error f ∧
      (build_pex env opts).1 = (select_interpreters env opts).1 := by
  simp [build_pex, hsel]

theorem select_interpreters_malformed (env : PexEnv) (opts : Options) (c0 : String)
    (hpy : opts.python = []) (hic : opts.interpreter_constraint ≠ [])
    (hf : opts.interpreter_constraint.find? env.malformed = some c0) :
    select_interpreters env opts
      = ([], .error (.die ("Compatibility requirements are not formatted properly: " ++ c0)
          GENERIC_FATAL)) := by
  rw [select_interpreters, if_neg (by simp [hpy]), if_pos hic]
  simp only [validate_constraints, hf]

theorem select_interpreters_unsat (env : PexEnv) (opts : Options)
    (hpy : opts.python = []) (hic : opts.interpreter_constraint ≠ [])
    (hwf : opts.interpreter_constraint.find? env.malformed = none)
    (hfail : (env.reachable.filter fun i =>
        opts.interpreter_constraint.any fun c => env.satisfies i c) = []) :
    select_interpreters env opts
      = (env.reachable.map fun i => Event.probe i.binary,
          .error (.die unsatisfiableConstraintsMsg CANNOT_SETUP_INTERPRETER)) := by
  rw [select_interpreters, if_neg (by simp [hpy]), if_pos hic]
  simp only [validate_constraints, hwf, iter_compatible_interpreters, hfail]
  rw [if_neg (by simp [hic])]
  simp

theorem build_pex_snd_deprecated_irrel (env : PexEnv) (opts : Options) (v u a : Option Bool) :
    (build_pex env { opts with zip_safe := v, unzip := u, always_write_cache := a }).2
      = (build_pex env opts).2 := by
  have hsel :
      select_interpreters env { opts with zip_safe := v, unzip := u, always_write_cache := a }
        = select_interpreters env opts := rfl
  have hpp :
      platform_phase env { opts with zip_safe := v, unzip := u, always_write_cache := a }
        = platform_phase env opts := rfl
  simp only [build_pex, hsel, hpp]
  split
  · rfl
  · split
    · rfl
    · simp only [apply_ite Prod.snd]

theorem mem_if_singleton (c : Prop) [Decidable c] (x y : Event) :
    (x ∈ (if c then [y] else [])) ↔ (c ∧ x = y) := by
  by_cases h : c
  · simp [h]
  · simp [h]

theorem warn_zip_iff (opts : Options) :
    Event.warn zipSafeDeprecatedMsg ∈ deprecation_warnings opts ↔
      opts.zip_safe.isSome = true := by
  have h1 : zipSafeDeprecatedMsg ≠ resourcesDirectoryDeprecatedMsg := by decide
  have h2 : zipSafeDeprecatedMsg ≠ unzipDeprecatedMsg := by decide
  have h3 : zipSafeDeprecatedMsg ≠ alwaysWriteCacheDeprecatedMsg := by decide
  simp [deprecation_warnings, mem_if_singleton, Event.warn.injEq, h1, h2, h3]

theorem warn_unzip_iff (opts : Options) :
    Event.warn unzipDeprecatedMsg ∈ deprecation_warnings opts ↔
      opts.unzip.isSome = true := by
  have h1 : unzipDeprecatedMsg ≠ resourcesDirectoryDeprecatedMsg := by decide
  have h2 : unzipDeprecatedMsg ≠ zipSafeDeprecatedMsg := by decide
  have h3 : unzipDeprecatedMsg ≠ alwaysWriteCacheDeprecatedMsg := by decide
  simp [deprecation_warnings, mem_if_singleton, Event.warn.injEq, h1, h2, h3]

theorem warn_awc_iff (opts : Options) :
    Event.warn alwaysWriteCacheDeprecatedMsg ∈ deprecation_warnings opts ↔
      opts.always_write_cache.isSome = true := by
  have h1 : alwaysWriteCacheDeprecatedMsg ≠ resourcesDirectoryDeprecatedMsg := by decide
  have h2 : alwaysWriteCacheDeprecatedMsg ≠ zipSafeDeprecatedMsg := by decide
  have h3 : alwaysWriteCacheDeprecatedMsg ≠ unzipDeprecatedMsg := by decide
  simp [deprecation_warnings, mem_if_singleton, Event.warn.injEq, h1, h2, h3]

theorem warn_resources_iff (opts : Options) :
    Event.warn resourcesDirectoryDeprecatedMsg ∈ deprecation_warnings opts ↔
      opts.resources_directory ≠ [] := by
  have h1 : resourcesDirectoryDeprecatedMsg ≠ zipSafeDeprecatedMsg := by decide
  have h2 : resourcesDirectoryDeprecatedMsg ≠ unzipDeprecatedMsg := by decide
  have h3 : resourcesDirectoryDeprecatedMsg ≠ alwaysWriteCacheDeprecatedMsg := by decide
  simp [deprecation_warnings, mem_if_singleton, Event.warn.injEq, h1, h2, h3]

-- Claim theorems, witnesses and counterexamples.

/-- Claim C5: for every declared platform-tag set and candidate interpreter
order, each declared tag ends up in exactly one of two places — claimed by
the first candidate interpreter (in discovery order) whose supported
platforms contain it, that candidate joining the participating interpreters
and the tag leaving the still-to-resolve set, or remaining in the unresolved
set passed to binary-only resolution — never both and never dropped
(deduplication preserving the declared tags); and when
`--resolve-local-platforms` is false no local matching is attempted and all
declared tags go directly to binary-only resolution.  The matching functions
are total, so the matching step itself never fails. -/
theorem claim_C5_platform_matcher :
    (∀ (l : List Platform) (t : Platform), t ∈ odedup l ↔ t ∈ l) ∧
    (∀ (candidates : List Interpreter) (platforms : List Platform)
        (interpreters : List Interpreter) (t : Platform), t ∈ platforms →
      ((candidates.find? (fun c => c.supported_platforms.contains t) = none ↔
          t ∈ (match_local_platforms candidates platforms interpreters).1) ∧
        (∀ c, candidates.find? (fun c2 => c2.supported_platforms.contains t) = some c →
          c ∈ (match_local_platforms candidates platforms interpreters).2 ∧
            t ∉ (match_local_platforms candidates platforms interpreters).1))) ∧
    (∀ (env : PexEnv) (opts : Options) (interpreters : List Interpreter),
      opts.resolve_local_platforms = false →
        platform_phase env opts interpreters = ([], (odedup opts.platforms, interpreters))) := by
  refine ⟨mem_odedup, ?_, ?_⟩
  · intro cands ps init t ht
    obtain ⟨hnone, hsome⟩ := match_local_platforms_spec cands ps init t ht
    refine ⟨⟨hnone, ?_⟩, hsome⟩
    intro hrem
    cases hfind : cands.find? fun c => c.supported_platforms.contains t with
    | none => rfl
    | some c => exact absurd hrem (hsome c hfind).2
  · intro env opts ints hflag
    simp [platform_phase, hflag]

/-- Witness for C5 at concrete inputs: with one candidate supporting exactly
`demoPlatA`, tag `demoPlatA` is claimed (candidate joins the interpreters,
tag leaves the unresolved set) while `demoPlatB` stays unresolved, and with
the flag off the declared tags pass through unchanged. -/
theorem claim_C5_witness :
    (demoPlatA ∈ odedup [demoPlatA, demoPlatB] ↔ demoPlatA ∈ [demoPlatA, demoPlatB]) ∧
    (demoInterp ∈ (match_local_platforms [demoInterp] [demoPlatA, demoPlatB] []).2 ∧
      demoPlatA ∉ (match_local_platforms [demoInterp] [demoPlatA, demoPlatB] []).1) ∧
    (([demoInterp].find? (fun c => c.supported_platforms.contains demoPlatB) = none ↔
      demoPlatB ∈ (match_local_platforms [demoInterp] [demoPlatA, demoPlatB] []).1)) ∧
    platform_phase demoEnv demoOpts [] = ([], (odedup demoOpts.platforms, [])) := by
  refine ⟨?_, ?_, ?_, ?_⟩
  · exact claim_C5_platform_matcher.1 [demoPlatA, demoPlatB] demoPlatA
  · exact (claim_C5_platform_matcher.2.1 [demoInterp] [demoPlatA, demoPlatB] [] demoPlatA
      (by simp)).2 demoInterp rfl
  · exact (claim_C5_platform_matcher.2.1 [demoInterp] [demoPlatA, demoPlatB] [] demoPlatB
      (by simp)).1
  · exact claim_C5_platform_matcher.2.2 demoEnv demoOpts [] rfl

/-- Claim C6: the build plan's primary interpreter is absent (`none`) exactly
when the participating interpreter list is empty, and when present it is one
of the candidates, on the minimal release line among them and the latest
(highest patch) release within that line — the modelled
`latest_release_of_min_compatible_version` rule applied by `build_pex`. -/
theorem claim_C6_primary_selection (interpreters : List Interpreter) :
    (select_primary interpreters = none ↔ interpreters = []) ∧
    (∀ i, select_primary interpreters = some i →
      i ∈ interpreters ∧ ∀ j ∈ interpreters, bestRel i j) := by
  cases interpreters with
  | nil =>
    refine ⟨by simp [select_primary], ?_⟩
    intro i hi
    rw [select_primary] at hi
    simp at hi
  | cons x xs =>
    constructor
    · constructor
      · intro h
        rw [select_primary] at h
        simp [latest_release_of_min_compatible_version] at h
      · intro h
        exact absurd h (by simp)
    · intro i hi
      rw [select_primary] at hi
      simp only [List.isEmpty_cons, Bool.false_eq_true, if_false,
        latest_release_of_min_compatible_version, Option.some.injEq] at hi
      subst hi
      exact ⟨foldl_pickBest_mem xs x, fun j hj => foldl_pickBest_best xs x j hj⟩

/-- Witness for C6 at a concrete candidate list: among 3.10.1, 3.8.5 and
3.8.9 the selected primary is the 3.8.9 binary — the latest release of the
minimal compatible line — and the empty list selects no primary. -/
theorem claim_C6_witness :
    (select_primary [] = none ↔ ([] : List Interpreter) = []) ∧
    demoI38b ∈ demoInts ∧ bestRel demoI38b demoI310 ∧ bestRel demoI38b demoI38a := by
  refine ⟨(claim_C6_primary_selection []).1, ?_⟩
  have h := (claim_C6_primary_selection demoInts).2 demoI38b rfl
  exact ⟨h.1, h.2 demoI310 (by simp [demoInts]), h.2 demoI38a (by simp [demoInts])⟩

/-- Claim C7: seeding the same artifact content hash twice against the same
cache root returns the identical output both times and performs the
installation work at most once — the second `seed_cache` call is a pure
lookup: it returns the same path, leaves the cache unchanged and does no
installation work. -/
theorem claim_C7_seed_idempotent (st : CacheState) (senv : SeedEnv) (opts : Options)
    (verbose : Bool) (h : String) (hv : opts.venv = false) (hh : senv.pex_hash = some h) :
    (seed_cache (seed_cache st senv opts verbose).2.1 senv opts verbose).1
        = (seed_cache st senv opts verbose).1 ∧
      (seed_cache (seed_cache st senv opts verbose).2.1 senv opts verbose).2.1
        = (seed_cache st senv opts verbose).2.1 ∧
      (seed_cache (seed_cache st senv opts verbose).2.1 senv opts verbose).2.2 = false := by
  by_cases hmem : (senv.pex_root, h) ∈ st
  · simp [seed_cache, hv, hh, maybe_install, hmem]
  · simp [seed_cache, hv, hh, maybe_install, hmem, List.mem_cons]

/-- Witness for C7 at a concrete cache, seed environment and options. -/
theorem claim_C7_witness :
    (seed_cache (seed_cache [] demoSeedEnv demoOpts false).2.1 demoSeedEnv demoOpts false).1
        = (seed_cache [] demoSeedEnv demoOpts false).1 ∧
      (seed_cache (seed_cache [] demoSeedEnv demoOpts false).2.1 demoSeedEnv demoOpts false).2.1
        = (seed_cache [] demoSeedEnv demoOpts false).2.1 ∧
      (seed_cache (seed_cache [] demoSeedEnv demoOpts false).2.1 demoSeedEnv demoOpts false).2.2
        = false :=
  claim_C7_seed_idempotent [] demoSeedEnv demoOpts false "0f1e2d3c" rfl rfl

/-- Claim C9: in non-venv seeding, a missing content hash makes `seed_cache`
abort with an assertion error naming the metadata file (`PexInfo_PATH`) and
the artifact path, the shared cache is not modified, and no installation work
is performed. -/
theorem claim_C9_missing_hash (st : CacheState) (senv : SeedEnv) (opts : Options)
    (verbose : Bool) (hv : opts.venv = false) (hh : senv.pex_hash = none) :
    seed_cache st senv opts verbose
      = (.error ("There was no pex_hash stored in " ++ PexInfo_PATH ++ " for "
            ++ opts.pex_name.getD "" ++ "."),
          st, false) := by
  simp [seed_cache, hv, hh]

/-- Witness for C9 at a concrete seed environment with no stored hash. -/
theorem claim_C9_witness :
    seed_cache [] demoSeedEnvNoHash demoOptsNamed false
      = (.error ("There was no pex_hash stored in " ++ PexInfo_PATH ++ " for "
            ++ demoOptsNamed.pex_name.getD "" ++ "."),
          [], false) :=
  claim_C9_missing_hash [] demoSeedEnvNoHash demoOptsNamed false rfl rfl

/-- Claim C1 (amended): with both an entry point and a script specified the
build fails fatally with the distinguished `INVALID_OPTIONS` exit status, but
only after dependency-resolution work has been performed: when interpreter
selection and resolution succeed, the failing run's trace already contains
the resolve (or resolve-from-pex) invocation. -/
theorem claim_C1_entry_script_conflict (env : PexEnv) (opts : Options)
    (is0 : List Interpreter)
    (hep : opts.entry_point.isSome = true) (hsc : opts.script.isSome = true)
    (hres : env.resolveOutcome = .ok ())
    (hsel : (select_interpreters env opts).2 = .ok is0) :
    (build_pex env opts).2 = .error (.die entryPointScriptConflictMsg INVALID_OPTIONS) ∧
      ∃ is ps, Event.resolveInvoked is ps ∈ (build_pex env opts).1 ∨
        Event.resolveFromPexInvoked is ps ∈ (build_pex env opts).1 := by
  simp only [build_pex, hsel, hres]
  rw [if_pos ⟨hep, hsc⟩]
  refine ⟨rfl, ?_⟩
  by_cases hrp : env.repoIsPex = true
  · rw [if_pos hrp]
    exact ⟨_, _, Or.inr (List.mem_append_right _ (List.mem_singleton.mpr rfl))⟩
  · rw [if_neg hrp]
    exact ⟨_, _, Or.inl (List.mem_append_right _ (List.mem_singleton.mpr rfl))⟩

/-- Witness for C1 (amended) at a concrete environment and options. -/
theorem claim_C1_witness :
    (build_pex demoEnv
        { demoOpts with entry_point := some "app.main:run", script := some "fab" }).2
      = .error (.die entryPointScriptConflictMsg INVALID_OPTIONS) ∧
      ∃ is ps,
        Event.resolveInvoked is ps ∈
          (build_pex demoEnv
            { demoOpts with entry_point := some "app.main:run", script := some "fab" }).1 ∨
        Event.resolveFromPexInvoked is ps ∈
          (build_pex demoEnv
            { demoOpts with entry_point := some "app.main:run", script := some "fab" }).1 :=
  claim_C1_entry_script_conflict demoEnv
    { demoOpts with entry_point := some "app.main:run", script := some "fab" } [] rfl rfl rfl rfl

/-- Counterexample to C1 as stated: with `-m pkg.mod:main -c somescript` the
build does die with `INVALID_OPTIONS`, but the observable trace already
contains the `resolve` invocation — dependency-resolution work is performed
before the conflict is detected, refuting "before any dependency-resolution
work is performed (neither resolve nor resolve_from_pex is invoked)". -/
theorem claim_C1_counterexample :
    (build_pex demoEnv
        { demoOpts with entry_point := some "pkg.mod:main", script := some "somescript" }).2
      = .error (.die entryPointScriptConflictMsg INVALID_OPTIONS) ∧
    Event.resolveInvoked [] [] ∈
      (build_pex demoEnv
        { demoOpts with entry_point := some "pkg.mod:main", script := some "somescript" }).1 := by
  exact ⟨rfl, by decide⟩

/-- Claim C2 (amended): with both `--python` and `--interpreter-constraint`
non-empty, `main` fails with the configuration-conflict message before any
interpreter probing (no probe event is observable) and before any build or
cache work (the shared cache is untouched); the exit status, however, is the
generic fatal-error status of a bare `die`, not the distinguished
invalid-options status. -/
theorem claim_C2_python_ic_conflict (env : MainEnv) (opts : Options)
    (ht1 : env.tmpdirExists = true) (ht2 : env.tmpdirIsDir = true)
    (hnc : ¬(opts.cache_dir.isSome ∧ opts.pex_root.isSome ∧ opts.cache_dir ≠ opts.pex_root))
    (hpy : opts.python ≠ []) (hic : opts.interpreter_constraint ≠ []) :
    (main env opts).2.2 = .error (.die pythonConstraintConflictMsg GENERIC_FATAL) ∧
      (∀ b, Event.probe b ∉ (main env opts).1) ∧
      (main env opts).2.1 = env.cache0 := by
  obtain ⟨r, hr⟩ :=
    compute_pex_root_isOk opts env.envPexRoot env.defaultPexRoot env.freshTmpdir hnc
  simp only [main, ht1, ht2, hr]
  rw [if_neg (by simp), if_neg (by simp), if_pos ⟨hpy, hic⟩]
  refine ⟨rfl, ?_, rfl⟩
  intro b
  exact compute_pex_root_no_probe opts env.envPexRoot env.defaultPexRoot env.freshTmpdir b

/-- Witness for C2 (amended) at a concrete environment and options. -/
theorem claim_C2_witness :
    (main demoMainEnv
        { demoOpts with python := ["python3.9"], interpreter_constraint := ["CPython>=3.8"] }).2.2
      = .error (.die pythonConstraintConflictMsg GENERIC_FATAL) ∧
    Event.probe "/usr/bin/python3.9" ∉
      (main demoMainEnv
        { demoOpts with python := ["python3.9"], interpreter_constraint := ["CPython>=3.8"] }).1 ∧
    (main demoMainEnv
        { demoOpts with python := ["python3.9"], interpreter_constraint := ["CPython>=3.8"] }).2.1
      = demoMainEnv.cache0 := by
  have h := claim_C2_python_ic_conflict demoMainEnv
    { demoOpts with python := ["python3.9"], interpreter_constraint := ["CPython>=3.8"] }
    rfl rfl (by simp [demoOpts]) (by simp) (by simp)
  exact ⟨h.1, h.2.1 "/usr/bin/python3.9", h.2.2⟩

/-- Counterexample to C2 as stated: at `--python a --interpreter-constraint
">=3.8"` the conflict `die` passes no exit status, so the process exits with
the generic fatal-error status, not the distinguished `INVALID_OPTIONS`
status the claim requires. -/
theorem claim_C2_counterexample :
    (main demoMainEnv
        { demoOpts with python := ["a"], interpreter_constraint := [">=3.8"] }).2.2
      = .error (.die pythonConstraintConflictMsg GENERIC_FATAL) ∧
    GENERIC_FATAL ≠ INVALID_OPTIONS :=
  ⟨rfl, by decide⟩

/-- Claim C3 (amended): supplying `--zip-safe`, `--unzip` or
`--always-write-cache` emits the corresponding deprecation warning and never
alters the build result; `-R` and `--cache-dir` likewise warn, but their
values are not ignored: an accepted `--cache-dir` becomes the cache root, and
it is a fatal error when it conflicts with a differing `--pex-root`. -/
theorem claim_C3_deprecated_options :
    (∀ (env : PexEnv) (opts : Options) (v u a : Option Bool),
      (build_pex env { opts with zip_safe := v, unzip := u, always_write_cache := a }).2
        = (build_pex env opts).2) ∧
    (∀ opts : Options,
      (Event.warn zipSafeDeprecatedMsg ∈ deprecation_warnings opts ↔
        opts.zip_safe.isSome = true) ∧
      (Event.warn unzipDeprecatedMsg ∈ deprecation_warnings opts ↔
        opts.unzip.isSome = true) ∧
      (Event.warn alwaysWriteCacheDeprecatedMsg ∈ deprecation_warnings opts ↔
        opts.always_write_cache.isSome = true) ∧
      (Event.warn resourcesDirectoryDeprecatedMsg ∈ deprecation_warnings opts ↔
        opts.resources_directory ≠ [])) ∧
    (∀ (opts : Options) (c : String) (er : Option String) (dp ft : String),
      opts.cache_dir = some c → opts.disable_cache = false →
      (opts.pex_root = none ∨ opts.pex_root = some c) →
      compute_pex_root opts er dp ft = ([Event.warn cacheDirDeprecatedMsg], .ok c)) := by
  refine ⟨build_pex_snd_deprecated_irrel, ?_, ?_⟩
  · intro opts
    exact ⟨warn_zip_iff opts, warn_unzip_iff opts, warn_awc_iff opts, warn_resources_iff opts⟩
  · intro opts c er dp ft hcd hdc hpr
    have hnc : ¬(opts.cache_dir.isSome ∧ opts.pex_root.isSome ∧ opts.cache_dir ≠ opts.pex_root) := by
      rcases hpr with h | h <;> simp [hcd, h]
    simp only [compute_pex_root]
    rw [if_neg hnc, if_neg (by simp [hdc])]
    simp [hcd]

/-- Witness for C3 (amended) at concrete options: the three no-op flags leave
the build result unchanged, the zip-safe warning fires exactly when supplied,
and an accepted concrete `--cache-dir` warns and becomes the cache root. -/
theorem claim_C3_witness :
    (build_pex demoEnv
        { demoOpts with
            zip_safe := some true
            unzip := some false
            always_write_cache := some true }).2
      = (build_pex demoEnv demoOpts).2 ∧
    (Event.warn zipSafeDeprecatedMsg ∈
        deprecation_warnings { demoOpts with zip_safe := some true } ↔
      (Options.zip_safe { demoOpts with zip_safe := some true }).isSome = true) ∧
    compute_pex_root { demoOpts with cache_dir := some "/var/pex-cache" } none
        "/home/user/.pex" "/tmp/tmpfresh"
      = ([Event.warn cacheDirDeprecatedMsg], .ok "/var/pex-cache") := by
  refine ⟨?_, ?_, ?_⟩
  · exact claim_C3_deprecated_options.1 demoEnv demoOpts (some true) (some false) (some true)
  · exact (claim_C3_deprecated_options.2.1 { demoOpts with zip_safe := some true }).1
  · exact claim_C3_deprecated_options.2.2 { demoOpts with cache_dir := some "/var/pex-cache" }
      "/var/pex-cache" none "/home/user/.pex" "/tmp/tmpfresh" rfl rfl (Or.inl rfl)

/-- Counterexample to C3 as stated: supplying the deprecated `--cache-dir`
together with a differing `--pex-root` is a fatal error — the deprecated
option does cause an error and its value is not ignored, refuting "explicitly
supplying the option never causes an error ... the supplied value does not
alter the behaviour". -/
theorem claim_C3_counterexample :
    (compute_pex_root
        { demoOpts with cache_dir := some "/tmp/cache", pex_root := some "/alt/pex-root" }
        none "/home/user/.pex" "/tmp/tmp123").2
      = .error (.die cacheDirConflictMsg GENERIC_FATAL) ∧
    (build_pex demoEnv { demoOpts with resources_directory := ["res"] }).2
      = .ok
          { interpreter := none
            sources_directories := ["res"]
            interpreter_constraints := []
            entry_point := none
            script := none } ∧
    (build_pex demoEnv demoOpts).2
      = .ok
          { interpreter := none
            sources_directories := []
            interpreter_constraints := []
            entry_point := none
            script := none } :=
  ⟨rfl, rfl, rfl⟩

/-- Claim C4: with interpreter constraints supplied and no explicit
interpreters, malformed constraint syntax fails fast before any interpreter
probing (the failing run's trace contains no probe event), and when no
reachable interpreter satisfies any constraint the build dies with the
distinguished `CANNOT_SETUP_INTERPRETER` status 102, distinct from the
generic fatal-error and invalid-options statuses. -/
theorem claim_C4_constraints (env : PexEnv) (opts : Options)
    (hpy : opts.python = []) (hic : opts.interpreter_constraint ≠ []) :
    ((opts.interpreter_constraint.any env.malformed = true →
      (∃ m, (build_pex env opts).2 = .error (.die m GENERIC_FATAL)) ∧
        ∀ b, Event.probe b ∉ (build_pex env opts).1) ∧
     (opts.interpreter_constraint.any env.malformed = false →
      (env.reachable.filter fun i =>
          opts.interpreter_constraint.any fun c => env.satisfies i c) = [] →
      (build_pex env opts).2
        = .error (.die unsatisfiableConstraintsMsg CANNOT_SETUP_INTERPRETER))) ∧
    (CANNOT_SETUP_INTERPRETER ≠ GENERIC_FATAL ∧ CANNOT_SETUP_INTERPRETER ≠ INVALID_OPTIONS) := by
  refine ⟨⟨?_, ?_⟩, by decide, by decide⟩
  · intro hmal
    cases hf : opts.interpreter_constraint.find? env.malformed with
    | none =>
      exfalso
      obtain ⟨c, hcmem, hcmal⟩ := List.any_eq_true.mp hmal
      rw [List.find?_eq_none] at hf
      exact (hf c hcmem) hcmal
    | some c0 =>
      have hsel := select_interpreters_malformed env opts c0 hpy hic hf
      have hprop := build_pex_sel_error env opts _ (by rw [hsel])
      refine ⟨⟨_, hprop.1⟩, ?_⟩
      intro b
      rw [hprop.2, hsel]
      simp
  · intro hwf hfail
    have hf : opts.interpreter_constraint.find? env.malformed = none := by
      rw [List.find?_eq_none]
      intro c hcmem hcmal
      have : opts.interpreter_constraint.any env.malformed = true :=
        List.any_eq_true.mpr ⟨c, hcmem, hcmal⟩
      rw [this] at hwf
      simp at hwf
    have hsel := select_interpreters_unsat env opts hpy hic hf hfail
    exact (build_pex_sel_error env opts _ (by rw [hsel])).1

/-- Witness for C4 at concrete inputs: a malformed constraint fails without
any probe of the reachable interpreter, and an unsatisfiable constraint set
dies with status 102. -/
theorem claim_C4_witness :
    Event.probe "/usr/bin/python3.9" ∉ (build_pex c4envMalformed c4optsMalformed).1 ∧
    (build_pex c4envUnsat c4optsUnsat).2
      = .error (.die unsatisfiableConstraintsMsg CANNOT_SETUP_INTERPRETER) ∧
    CANNOT_SETUP_INTERPRETER ≠ INVALID_OPTIONS := by
  refine ⟨?_, ?_, ?_⟩
  · exact ((claim_C4_constraints c4envMalformed c4optsMalformed rfl (by decide)).1.1
      rfl).2 "/usr/bin/python3.9"
  · exact (claim_C4_constraints c4envUnsat c4optsUnsat rfl (by decide)).1.2 rfl rfl
  · exact (claim_C4_constraints c4envUnsat c4optsUnsat rfl (by decide)).2.2

/-- Claim C8: with seed mode `ARGS` (main passes `verbose := seed ==
VERBOSE`), `seed_cache` returns exactly the content-hash-keyed filesystem
path — under the cache root and ending in the entry module `__main__.py` —
as the only output; with `VERBOSE` it returns the serialized record of the
cache root, the interpreter binary and the invocable path; and with `NONE`
`main` saves the artifact without invoking the cache seeder at all: the
shared cache is untouched and no seed output is printed. -/
theorem claim_C8_seed_modes :
    (∀ (st : CacheState) (senv : SeedEnv) (opts : Options) (h : String),
      opts.venv = false → senv.pex_hash = some h → opts.seed = Seed.ARGS →
      (seed_cache st senv opts (opts.seed == Seed.VERBOSE)).1
          = .ok (installedPexPath senv.pex_root h ++ "/__main__.py") ∧
        (∃ rest, installedPexPath senv.pex_root h ++ "/__main__.py" = senv.pex_root ++ rest) ∧
        (∃ pre, installedPexPath senv.pex_root h ++ "/__main__.py" = pre ++ "/__main__.py")) ∧
    (∀ (st : CacheState) (senv : SeedEnv) (opts : Options) (h : String),
      opts.venv = false → senv.pex_hash = some h → opts.seed = Seed.VERBOSE →
      (seed_cache st senv opts (opts.seed == Seed.VERBOSE)).1
          = .ok (json_dumps_seed senv.pex_root senv.python_binary
              (installedPexPath senv.pex_root h ++ "/__main__.py"))) ∧
    (∀ (env : MainEnv) (opts : Options) (n r : String) (evs : List Event) (b : PEXBuilder),
      env.tmpdirExists = true → env.tmpdirIsDir = true →
      (compute_pex_root opts env.envPexRoot env.defaultPexRoot env.freshTmpdir).2 = .ok r →
      ¬(opts.python ≠ [] ∧ opts.interpreter_constraint ≠ []) →
      env.resolveConfigOutcome = .ok () →
      build_pex env.toPexEnv opts = (evs, .ok b) →
      opts.pex_name = some n → opts.seed = Seed.NONE →
      (main env opts).2.2 = .ok (.saved none) ∧ (main env opts).2.1 = env.cache0) := by
  refine ⟨?_, ?_, ?_⟩
  · intro st senv opts h hv hh hseed
    rw [hseed]
    refine ⟨?_, ?_, ?_⟩
    · by_cases hmem : (senv.pex_root, h) ∈ st <;>
        simp [seed_cache, hv, hh, maybe_install, hmem]
    · exact ⟨"/installed_pexes/" ++ h ++ "/__main__.py",
        by simp [installedPexPath, String.append_assoc]⟩
    · exact ⟨installedPexPath senv.pex_root h, rfl⟩
  · intro st senv opts h hv hh hseed
    rw [hseed]
    by_cases hmem : (senv.pex_root, h) ∈ st <;>
      simp [seed_cache, hv, hh, maybe_install, hmem]
  · intro env opts n r evs b ht1 ht2 hcpr hnoc hrc hb hn hseed
    simp only [main, ht1, ht2, hcpr, hrc, hb, hn]
    rw [if_neg (by simp), if_neg (by simp), if_neg hnoc, if_neg (by simp [hseed])]
    exact ⟨rfl, rfl⟩

/-- Witness for C8 at concrete inputs: the three seed modes at a concrete
cache, artifact hash and environment. -/
theorem claim_C8_witness :
    (seed_cache [] demoSeedEnv c8optsArgs (c8optsArgs.seed == Seed.VERBOSE)).1
        = .ok (installedPexPath demoSeedEnv.pex_root "0f1e2d3c" ++ "/__main__.py") ∧
    (seed_cache [] demoSeedEnv c8optsVerbose (c8optsVerbose.seed == Seed.VERBOSE)).1
        = .ok (json_dumps_seed demoSeedEnv.pex_root demoSeedEnv.python_binary
            (installedPexPath demoSeedEnv.pex_root "0f1e2d3c" ++ "/__main__.py")) ∧
    (main demoMainEnv c8optsNone).2.2 = .ok (.saved none) ∧
    (main demoMainEnv c8optsNone).2.1 = demoMainEnv.cache0 := by
  have h3 := claim_C8_seed_modes.2.2 demoMainEnv c8optsNone "out.pex" "/home/user/.pex"
    [Event.resolveInvoked [] []]
    { interpreter := none, sources_directories := [], interpreter_constraints := [],
      entry_point := none, script := none }
    rfl rfl rfl (by simp [c8optsNone, demoOpts]) rfl rfl rfl rfl
  exact ⟨(claim_C8_seed_modes.1 [] demoSeedEnv c8optsArgs "0f1e2d3c" rfl rfl rfl).1,
    claim_C8_seed_modes.2.1 [] demoSeedEnv c8optsVerbose "0f1e2d3c" rfl rfl rfl,
    h3.1, h3.2⟩

/-- Claim C10 (amended): when `--disable-cache` is set and the `--cache-dir`
vs `--pex-root` conflict check does not fire, the pex-root computation of
`main` returns the freshly created private temporary directory, and besides
the `--cache-dir` deprecation warning exactly one non-fatal warning is
emitted naming the highest-precedence ignored root source (`--cache-dir`,
then `--pex-root`, then `PEX_ROOT`), and none when no root source was
supplied. -/
theorem claim_C10_disable_cache (opts : Options) (er : Option String) (dp ft : String)
    (hdc : opts.disable_cache = true)
    (hnc : ¬(opts.cache_dir.isSome ∧ opts.pex_root.isSome ∧ opts.cache_dir ≠ opts.pex_root)) :
    compute_pex_root opts er dp ft
      = ((if opts.cache_dir.isSome then [Event.warn cacheDirDeprecatedMsg] else []) ++
          (if opts.cache_dir.isSome then [Event.warn (ignoredPexRootMsg "--cache-dir")]
           else if opts.pex_root.isSome then [Event.warn (ignoredPexRootMsg "--pex-root")]
           else if er.isSome then [Event.warn (ignoredPexRootMsg "PEX_ROOT")]
           else []),
        .ok ft) := by
  simp only [compute_pex_root]
  rw [if_neg hnc, if_pos hdc]

/-- Witness for C10 (amended): with `--disable-cache` and a `--pex-root`
supplied, the fresh temporary directory is used and exactly the one warning
naming `--pex-root` is emitted. -/
theorem claim_C10_witness :
    compute_pex_root { demoOpts with disable_cache := true, pex_root := some "/custom/root" }
        none "/home/user/.pex" "/tmp/tmpfreshroot"
      = ([Event.warn (ignoredPexRootMsg "--pex-root")], .ok "/tmp/tmpfreshroot") := by
  have h := claim_C10_disable_cache
    { demoOpts with disable_cache := true, pex_root := some "/custom/root" }
    none "/home/user/.pex" "/tmp/tmpfreshroot" rfl (by simp [demoOpts])
  simpa using h

/-- Counterexample to C10 as stated: with `--disable-cache` together with
`--cache-dir` and a differing `--pex-root`, `main` dies fatally instead of
using a fresh temporary directory and warning non-fatally — the supplied
cache-root values are not merely ignored with a warning. -/
theorem claim_C10_counterexample :
    (compute_pex_root
        { demoOpts with
            disable_cache := true
            cache_dir := some "/one"
            pex_root := some "/two" }
        none "/home/user/.pex" "/tmp/fresh").2
      = .error (.die cacheDirConflictMsg GENERIC_FATAL) := rfl

end pex
